import Mathlib

/-!
Verification of the product-lookup API backend (`app/main.py`,
`app/routers/products.py`).

The two request handlers, `get_product_by_code` and `get_products`, are
embedded as pure functions over an explicit store state.  Exceptions of the
Python code are modelled by an `Except` value threaded through the `try`
block; the `except` clauses of each handler become a `match` on that value,
in the clause order of the source.  The store is a list of product rows
together with an optional forced failure message: when the failure message
is present, every query execution raises a `SQLAlchemyError` carrying that
message, which models a store-layer failure such as a lost connection.

SQL semantics used by the model:
  - `select(Product).where(Product.code == code)` returns the rows whose
    `code` column equals the argument;
  - `select(Product).limit(l).offset(o).order_by(Product.prd_id)` sorts the
    rows by ascending `prd_id`, then skips `offset` rows and takes at most
    `limit` rows (ORDER BY applies before LIMIT/OFFSET in SQL regardless of
    the method-call order on the select construct);
  - `Result.scalar_one_or_none()` yields the single row, `none` for an empty
    result, and raises a `SQLAlchemyError` (`MultipleResultsFound`) when the
    result holds two or more rows;
  - a SELECT never changes the store, so query execution returns the store
    state unchanged; the handlers thread that state so that read-only-ness
    is a provable property of the handler, not an ambient assumption.
-/

/-- A row of the product master table (`app/models.py` `Product`):
internal id `prd_id`, external lookup code `code`, display name `name`. -/
structure Product where
  prd_id : Nat
  code : Int
  name : String
deriving DecidableEq, Repr

/-- The wire representation of a product (`app/schemas.py` `Product`),
built from a row by `ProductSchema.from_orm`. -/
structure ProductSchema where
  prd_id : Nat
  code : Int
  name : String
deriving DecidableEq, Repr

/-- Mapping `ProductSchema.from_orm(product)`: field-for-field conversion of
a row to its public representation. -/
def ProductSchema.from_orm (p : Product) : ProductSchema :=
  { prd_id := p.prd_id, code := p.code, name := p.name }

/-- The Product Catalog Store: its rows, plus an optional forced failure.
`failMsg = some m` models a store layer whose next query execution raises a
`SQLAlchemyError` with message `m`. -/
structure Store where
  rows : List Product
  failMsg : Option String
deriving DecidableEq, Repr

/-- The JSON body of an error response: the `detail` dict passed to
`HTTPException`, or the `content` dict of the fallback `JSONResponse`.
`code := none` models a body without a `"code"` key. -/
structure ErrorDetail where
  error : String
  message : String
  code : Option Int
deriving DecidableEq, Repr

/-- The Python exceptions that can cross the `try` block boundary in the
handlers: `fastapi.HTTPException`, `sqlalchemy.exc.SQLAlchemyError`, or any
other exception (type name and message). -/
inductive PyError where
  | httpException (status : Nat) (detail : ErrorDetail)
  | sqlAlchemyError (msg : String)
  | otherError (ty : String) (msg : String)
deriving DecidableEq, Repr

/-- A handler response: a single product (200), a product list (200), an
`HTTPException`-shaped error (`status`, `detail`), or the framework's
request-validation rejection. -/
inductive Response where
  | ok (body : ProductSchema)
  | okList (body : List ProductSchema)
  | httpError (status : Nat) (detail : ErrorDetail)
  | validationError (status : Nat)
deriving DecidableEq, Repr

/-- Ascending order on the internal identifier, the `ORDER BY Product.prd_id`
sort key. -/
def prdIdLe (a b : Product) : Prop := a.prd_id ≤ b.prd_id

instance : DecidableRel prdIdLe := fun a b => Nat.decLe a.prd_id b.prd_id

instance : IsTotal Product prdIdLe := ⟨fun a b => Nat.le_total a.prd_id b.prd_id⟩

instance : IsTrans Product prdIdLe := ⟨fun _ _ _ => Nat.le_trans⟩

/-- Sorting `ORDER BY Product.prd_id`: the rows sorted by ascending internal id. -/
def sortByPrdId (rows : List Product) : List Product :=
  rows.insertionSort prdIdLe

/-- The two SELECT statements the handlers build:
`select(Product).where(Product.code == code)` and
`select(Product).limit(limit).offset(offset).order_by(Product.prd_id)`. -/
inductive Stmt where
  | selectWhereCode (code : Int)
  | selectPage (limit : Int) (offset : Int)
deriving DecidableEq, Repr

/-- Row set produced by a statement over the store's rows. A negative
`offset` skips nothing and a non-positive `limit` yields no rows (the
`Int.toNat` clamping). -/
def evalStmt (rows : List Product) : Stmt → List Product
  | Stmt.selectWhereCode c => rows.filter (fun p => p.code == c)
  | Stmt.selectPage l o => ((sortByPrdId rows).drop o.toNat).take l.toNat

/-- Execution `await db.execute(stmt)`: raises `SQLAlchemyError` when the store is in
its forced-failure state, otherwise returns the statement's rows.  A SELECT
is read-only, so the store comes back unchanged in either case. -/
def Store.execute (db : Store) (s : Stmt) : Except PyError (List Product) × Store :=
  match db.failMsg with
  | some m => (Except.error (PyError.sqlAlchemyError m), db)
  | none => (Except.ok (evalStmt db.rows s), db)

/-- Extraction `result.scalar_one_or_none()`: `none` on zero rows, the row on exactly
one, and `MultipleResultsFound` (a `SQLAlchemyError`) on two or more. -/
def scalar_one_or_none (rows : List Product) : Except PyError (Option Product) :=
  match rows with
  | [] => Except.ok none
  | [p] => Except.ok (some p)
  | _ => Except.error (PyError.sqlAlchemyError
      "Multiple rows were found when one or none was required")

/-- The 404 `detail` body raised when no product matches the code
(`products.py` lines 57-64). -/
def notFoundDetail (code : Int) : ErrorDetail :=
  { error := "Product not found"
    message := "指定された商品コードは登録されていません"
    code := some code }

/-- The 500 `detail` body of the `except SQLAlchemyError` clauses
(`products.py` lines 75-81 and 132-138). -/
def databaseErrorDetail : ErrorDetail :=
  { error := "Database Error"
    message := "データベース処理中にエラーが発生しました"
    code := none }

/-- The 500 `detail` body of the handlers' `except Exception` clauses
(`products.py` lines 85-91 and 142-148). -/
def unexpectedErrorDetail : ErrorDetail :=
  { error := "Internal Server Error"
    message := "サーバー内部エラーが発生しました"
    code := none }

/-- The `try` block of `get_product_by_code` (lines 47-67): execute the
code-lookup query, extract zero-or-one row, raise 404 on `None`, else
return the mapped schema. -/
def lookupTryBlock (code : Int) (db : Store) : Except PyError ProductSchema × Store :=
  match db.execute (Stmt.selectWhereCode code) with
  | (Except.error e, db1) => (Except.error e, db1)
  | (Except.ok rws, db1) =>
    match scalar_one_or_none rws with
    | Except.error e => (Except.error e, db1)
    | Except.ok none =>
        (Except.error (PyError.httpException 404 (notFoundDetail code)), db1)
    | Except.ok (some p) => (Except.ok (ProductSchema.from_orm p), db1)

/-- Handler `get_product_by_code(code, db)` (`products.py` lines 30-91):
the `try` block followed by the clauses `except HTTPException: raise`,
`except SQLAlchemyError`, `except Exception`, in source order. -/
def get_product_by_code (code : Int) (db : Store) : Response × Store :=
  match lookupTryBlock code db with
  | (Except.ok body, db1) => (Response.ok body, db1)
  | (Except.error (PyError.httpException s d), db1) => (Response.httpError s d, db1)
  | (Except.error (PyError.sqlAlchemyError _), db1) =>
      (Response.httpError 500 databaseErrorDetail, db1)
  | (Except.error (PyError.otherError _ _), db1) =>
      (Response.httpError 500 unexpectedErrorDetail, db1)

/-- The upper bound of the `Path(..., ge=1, le=99999999999999999999999999)`
constraint on `code`: twenty-six nines, `10^26 - 1`. -/
def MAX_CODE : Int := 99999999999999999999999999

/-- The route `GET /products/{code}`: FastAPI validates the path parameter
against `ge=1, le=MAX_CODE` before the handler body runs; out-of-range
codes are rejected with a 422 validation error and the handler (and hence
the store) is never reached. -/
def productByCodeRoute (code : Int) (db : Store) : Response × Store :=
  if 1 ≤ code ∧ code ≤ MAX_CODE then get_product_by_code code db
  else (Response.validationError 422, db)

/-- Handler `get_products(limit, offset, db)` (`products.py` lines 100-148):
execute the paginated listing query and map each row; `except
SQLAlchemyError` then `except Exception` convert failures to 500 bodies. -/
def get_products (limit : Int) (offset : Int) (db : Store) : Response × Store :=
  match db.execute (Stmt.selectPage limit offset) with
  | (Except.ok products, db1) =>
      (Response.okList (products.map ProductSchema.from_orm), db1)
  | (Except.error (PyError.sqlAlchemyError _), db1) =>
      (Response.httpError 500 databaseErrorDetail, db1)
  | (Except.error _, db1) =>
      (Response.httpError 500 unexpectedErrorDetail, db1)

/-- The route `GET /products`: the query parameters are optional with
defaults `limit=100`, `offset=0`. -/
def getProductsRoute (lim off : Option Int) (db : Store) : Response × Store :=
  get_products (lim.getD 100) (off.getD 0) db

/-- An arbitrary Python exception reaching the application boundary:
its type name and its message. -/
structure PyExc where
  ty : String
  msg : String
deriving DecidableEq, Repr

/-- Fallback `global_exception_handler` (`main.py` lines 58-67): any uncaught
exception becomes a 500 `JSONResponse` with the fixed generic body. -/
def global_exception_handler (exc : PyExc) : Response :=
  Response.httpError 500
    { error := "Internal Server Error"
      message := "An unexpected error occurred"
      code := none }

/-- Response shaping of `get_products` applied to the outcome of the
executed listing query: the success mapping and the two `except` clauses. -/
def pageResponse (r : Except PyError (List Product)) : Response :=
  match r with
  | Except.ok products => Response.okList (products.map ProductSchema.from_orm)
  | Except.error (PyError.sqlAlchemyError _) => Response.httpError 500 databaseErrorDetail
  | Except.error _ => Response.httpError 500 unexpectedErrorDetail

/-- A demonstration store of three seeded rows with distinct codes, in
ascending `prd_id` order. -/
def demoStore : Store :=
  { rows := [⟨1, 4901234567890, "Tea"⟩, ⟨2, 4901234567891, "Coffee"⟩,
             ⟨3, 4901234567892, "Water"⟩]
    failMsg := none }

/-!  Helper lemmas shared by the claim theorems. -/

/-- A SELECT leaves the store unchanged: the state returned by the `try`
block of `get_product_by_code` is the input state. -/
theorem lookupTryBlock_snd (code : Int) (db : Store) :
    (lookupTryBlock code db).2 = db := by
  unfold lookupTryBlock Store.execute
  cases db.failMsg
  · rcases evalStmt db.rows (Stmt.selectWhereCode code) with _ | ⟨p, _ | ⟨q, rest⟩⟩ <;> rfl
  · rfl

/-- The handler `get_product_by_code` returns the store state untouched. -/
theorem get_product_by_code_snd (code : Int) (db : Store) :
    (get_product_by_code code db).2 = db := by
  have h := lookupTryBlock_snd code db
  unfold get_product_by_code
  rcases hE : lookupTryBlock code db with ⟨res, db1⟩
  rw [hE] at h
  have h2 : db1 = db := h
  subst h2
  rcases res with e | b
  · cases e <;> rfl
  · rfl

/-- The handler `get_products` returns the store state untouched. -/
theorem get_products_snd (limit offset : Int) (db : Store) :
    (get_products limit offset db).2 = db := by
  unfold get_products Store.execute
  cases db.failMsg <;> rfl

/-- C1: for every code such that exactly one Product row in the store has
that code (and the store does not fail), `get_product_by_code` returns
HTTP 200 whose body is the mapping of that row, and the body's `code`
field equals the input code. -/
theorem C1_lookup_found (code : Int) (db : Store) (p : Product)
    (hOk : db.failMsg = none)
    (hFilter : db.rows.filter (fun q => q.code == code) = [p]) :
    (get_product_by_code code db).1 = Response.ok (ProductSchema.from_orm p) ∧
    (ProductSchema.from_orm p).code = code := by
  constructor
  · simp [get_product_by_code, lookupTryBlock, Store.execute, hOk, evalStmt,
      hFilter, scalar_one_or_none]
  · have hmem : p ∈ db.rows.filter (fun q => q.code == code) := by
      rw [hFilter]; exact List.mem_singleton_self p
    have hpred := List.of_mem_filter hmem
    simpa [ProductSchema.from_orm] using eq_of_beq hpred

theorem C1_lookup_found_witness :
    (get_product_by_code 4901234567891 demoStore).1 =
      Response.ok { prd_id := 2, code := 4901234567891, name := "Coffee" } ∧
    (ProductSchema.from_orm ⟨2, 4901234567891, "Coffee"⟩).code = 4901234567891 :=
  C1_lookup_found 4901234567891 demoStore ⟨2, 4901234567891, "Coffee"⟩
    rfl (by decide)

/-- C2: for every in-range code with no matching Product row (store healthy),
the route returns HTTP 404 with a structured body whose error kind is
"Product not found", whose human-readable message is nonempty, and whose
`code` field equals the input code. -/
theorem C2_lookup_notFound (code : Int) (db : Store)
    (h1 : 1 ≤ code) (h2 : code ≤ MAX_CODE) (hOk : db.failMsg = none)
    (hFilter : db.rows.filter (fun q => q.code == code) = []) :
    (productByCodeRoute code db).1 = Response.httpError 404 (notFoundDetail code) ∧
    (notFoundDetail code).error = "Product not found" ∧
    (notFoundDetail code).message = "指定された商品コードは登録されていません" ∧
    (notFoundDetail code).code = some code := by
  refine ⟨?_, rfl, rfl, rfl⟩
  unfold productByCodeRoute
  rw [if_pos ⟨h1, h2⟩]
  simp [get_product_by_code, lookupTryBlock, Store.execute, hOk, evalStmt,
    hFilter, scalar_one_or_none]

theorem C2_lookup_notFound_witness :
    (productByCodeRoute 7 demoStore).1 = Response.httpError 404 (notFoundDetail 7) ∧
    (notFoundDetail 7).error = "Product not found" ∧
    (notFoundDetail 7).message = "指定された商品コードは登録されていません" ∧
    (notFoundDetail 7).code = some 7 :=
  C2_lookup_notFound 7 demoStore (by decide) (by decide) rfl (by decide)

/-- C6: the global fallback handler maps every exception, independently of
its type and content, to HTTP 500 with exactly the fixed body
`error = "Internal Server Error"`, `message = "An unexpected error occurred"`. -/
theorem C6_global_fallback (exc : PyExc) :
    global_exception_handler exc =
      Response.httpError 500
        { error := "Internal Server Error"
          message := "An unexpected error occurred"
          code := none } := rfl

/-- C7: whenever the `try` block of `get_product_by_code` raises an
already-classified `HTTPException` (in particular the 404 not-found), the
handler re-raises it unchanged: the response carries exactly that status
and detail, and is not reclassified by the store-error or catch-all
branches. -/
theorem C7_http_reraised (code : Int) (db : Store) (s : Nat) (d : ErrorDetail)
    (h : (lookupTryBlock code db).1 = Except.error (PyError.httpException s d)) :
    (get_product_by_code code db).1 = Response.httpError s d := by
  unfold get_product_by_code
  rcases hE : lookupTryBlock code db with ⟨res, db1⟩
  rw [hE] at h
  have h2 : res = Except.error (PyError.httpException s d) := h
  subst h2
  rfl

theorem C7_http_reraised_witness :
    (get_product_by_code 1 ⟨[], none⟩).1 =
      Response.httpError 404 (notFoundDetail 1) :=
  C7_http_reraised 1 ⟨[], none⟩ 404 (notFoundDetail 1) rfl

/-- C3: for every limit and offset (store healthy), `get_products` returns
the store's rows sorted by ascending `prd_id`, with the first `offset` rows
skipped and at most `limit` rows taken; the sorted sequence is a
permutation of the store's rows; and the parameterless route uses the
defaults `limit=100`, `offset=0`. -/
theorem C3_pagination (limit offset : Int) (db : Store)
    (hOk : db.failMsg = none) :
    (get_products limit offset db).1 =
      Response.okList ((((sortByPrdId db.rows).drop offset.toNat).take limit.toNat).map
        ProductSchema.from_orm) ∧
    List.Sorted prdIdLe (sortByPrdId db.rows) ∧
    (sortByPrdId db.rows).Perm db.rows ∧
    (((sortByPrdId db.rows).drop offset.toNat).take limit.toNat).length ≤ limit.toNat ∧
    getProductsRoute none none db = get_products 100 0 db := by
  refine ⟨?_, ?_, ?_, ?_, rfl⟩
  · simp [get_products, Store.execute, hOk, evalStmt]
  · exact List.sorted_insertionSort prdIdLe db.rows
  · exact List.perm_insertionSort prdIdLe db.rows
  · rw [List.length_take]
    exact Nat.min_le_left _ _

theorem C3_pagination_witness :
    (get_products 2 1 demoStore).1 =
      Response.okList [{ prd_id := 2, code := 4901234567891, name := "Coffee" },
                       { prd_id := 3, code := 4901234567892, name := "Water" }] := by
  have h := (C3_pagination 2 1 demoStore rfl).1
  rw [h]
  decide

/-- C4 counterexample: the allowed range is not "up to 25 digits".  The code
`10^25` (written as its 26-digit literal) exceeds every 25-digit value
(`10^25 - 1`, the 25-nines literal), yet the route accepts it, queries the
store and returns 200 with the matching product — not a validation
rejection. -/
theorem C4_counterexample :
    (9999999999999999999999999 : Int) < 10000000000000000000000000 ∧
    (productByCodeRoute 10000000000000000000000000
        ⟨[⟨1, 10000000000000000000000000, "X"⟩], none⟩).1 =
      Response.ok { prd_id := 1, code := 10000000000000000000000000, name := "X" } ∧
    (productByCodeRoute 10000000000000000000000000
        ⟨[⟨1, 10000000000000000000000000, "X"⟩], none⟩).1 ≠
      Response.validationError 422 := by
  refine ⟨by decide, by decide, by decide⟩

/-- C4 amended: the allowed range of `code` is `1 ≤ code ≤ 10^26 - 1`
(twenty-six nines, so codes of up to 26 digits are accepted).  For every
code that is `≤ 0` or exceeds that bound, the route returns a 422
validation rejection, leaves the store untouched, and the response is
independent of the store state, so the store is never queried. -/
theorem C4_range_validation (code : Int) (db db2 : Store)
    (h : code < 1 ∨ MAX_CODE < code) :
    productByCodeRoute code db = (Response.validationError 422, db) ∧
    (productByCodeRoute code db).1 = (productByCodeRoute code db2).1 := by
  have hneg : ¬ (1 ≤ code ∧ code ≤ MAX_CODE) := by
    rintro ⟨hc1, hc2⟩
    rcases h with h | h
    · omega
    · exact absurd hc2 (not_le.mpr h)
  constructor
  · unfold productByCodeRoute
    rw [if_neg hneg]
  · unfold productByCodeRoute
    rw [if_neg hneg, if_neg hneg]

theorem C4_range_validation_witness :
    productByCodeRoute 0 demoStore = (Response.validationError 422, demoStore) ∧
    (productByCodeRoute 0 demoStore).1 = (productByCodeRoute 0 ⟨[], none⟩).1 :=
  C4_range_validation 0 demoStore ⟨[], none⟩ (Or.inl (by decide))

/-- C5: for every store-layer failure — whatever the raw exception message
`m` — both handlers return HTTP 500 whose body has error kind
"Database Error" and the fixed generic message; the response is the same
constant for every `m`, so it never contains the raw exception text. -/
theorem C5_store_failure (code limit offset : Int) (rows : List Product) (m : String) :
    (get_product_by_code code ⟨rows, some m⟩).1 =
      Response.httpError 500 databaseErrorDetail ∧
    (get_products limit offset ⟨rows, some m⟩).1 =
      Response.httpError 500 databaseErrorDetail ∧
    databaseErrorDetail.error = "Database Error" ∧
    databaseErrorDetail.message = "データベース処理中にエラーが発生しました" :=
  ⟨rfl, rfl, rfl, rfl⟩

/-- The listing response shaping never yields a validation rejection. -/
theorem pageResponse_not_validation (r : Except PyError (List Product)) (s : Nat) :
    pageResponse r ≠ Response.validationError s := by
  rcases r with e | products
  · rcases e with ⟨st, d⟩ | m | ⟨t, m⟩ <;> simp [pageResponse]
  · simp [pageResponse]

/-- C8: for every integer limit and offset, including zero and negative
values, `get_products` applies no range validation: its response is exactly
the shaping of the query executed with the raw `limit` and `offset`, and it
never returns a validation rejection. -/
theorem C8_no_validation (limit offset : Int) (db : Store) :
    (get_products limit offset db).1 =
      pageResponse (db.execute (Stmt.selectPage limit offset)).1 ∧
    ∀ s, (get_products limit offset db).1 ≠ Response.validationError s := by
  have h1 : (get_products limit offset db).1 =
      pageResponse (db.execute (Stmt.selectPage limit offset)).1 := by
    unfold get_products pageResponse Store.execute
    cases db.failMsg <;> rfl
  refine ⟨h1, fun s => ?_⟩
  rw [h1]
  exact pageResponse_not_validation _ s

/-- C9: every request, whatever its outcome, leaves the Product Catalog
Store unchanged: both handlers and both routes are read-only. -/
theorem C9_read_only (code limit offset : Int) (lim off : Option Int) (db : Store) :
    (get_product_by_code code db).2 = db ∧
    (get_products limit offset db).2 = db ∧
    (productByCodeRoute code db).2 = db ∧
    (getProductsRoute lim off db).2 = db := by
  refine ⟨get_product_by_code_snd code db, get_products_snd limit offset db, ?_,
    get_products_snd (lim.getD 100) (off.getD 0) db⟩
  unfold productByCodeRoute
  split
  · exact get_product_by_code_snd code db
  · rfl

/-- C10: when more than one Product row shares the queried code (the
uniqueness invariant violated), the single-row extraction raises a
store-layer error and `get_product_by_code` answers HTTP 500 with the
"Database Error" body, never an arbitrary matching row. -/
theorem C10_duplicate_rows_500 (code : Int) (db : Store) (p q : Product)
    (rest : List Product) (hOk : db.failMsg = none)
    (hFilter : db.rows.filter (fun r => r.code == code) = p :: q :: rest) :
    (get_product_by_code code db).1 = Response.httpError 500 databaseErrorDetail := by
  simp [get_product_by_code, lookupTryBlock, Store.execute, hOk, evalStmt, hFilter,
    scalar_one_or_none]

theorem C10_duplicate_rows_500_witness :
    (get_product_by_code 5 ⟨[⟨1, 5, "A"⟩, ⟨2, 5, "B"⟩], none⟩).1 =
      Response.httpError 500 databaseErrorDetail :=
  C10_duplicate_rows_500 5 ⟨[⟨1, 5, "A"⟩, ⟨2, 5, "B"⟩], none⟩ ⟨1, 5, "A"⟩ ⟨2, 5, "B"⟩
    [] rfl (by decide)
